import Mathlib

/-!
Verification of the buzz voice-pipeline orchestrator and the ChatGPT
transcription provider bridge against its natural-language specification.

The definitions below are a shallow embedding of the Rust sources
`src/src-tauri/src/lib.rs` and `src/src-tauri/src/transcription/chatgpt.rs`.
Pure functions become Lean functions, stateful code becomes explicit state
passing, machine integers are `Nat` with explicit reduction modulo `2 ^ 64`
where wrap-around matters, and fallible code returns `Option` or `Except`.
Components of the repository that the claims depend on but whose source is
not available (the `voice_pipeline`, `hotkey_service`, `auth_store` and
`oauth` modules) are modelled from the specification; their definitions say
so in their doc comments.
-/

set_option linter.unusedVariables false

namespace Buzz

/-- Application status values emitted by the orchestrator. Modelled from the
spec: the `status_notifier` module is not under `src/`; section 6 of the
spec fixes the status set as Idle, Listening, Transcribing and Error. -/
inductive AppStatus where
  | Idle
  | Listening
  | Transcribing
  | Error
deriving DecidableEq, Repr

/-- Recording transitions acknowledged back to the hotkey service. Modelled
from the spec: the `hotkey_service` module is not under `src/`; the variants
`Started` and `Stopped` appear at their use sites in `lib.rs`. -/
inductive RecordingTransition where
  | Started
  | Stopped
deriving DecidableEq, Repr

/-- Observable side effects produced through the pipeline delegate and the
services it calls: status-changed events, transcript-ready events,
pipeline-error events, hotkey transition acknowledgments, recording
start/stop on the audio capture service, invocations of the transcription
orchestrator, and text insertion. Each constructor records one externally
visible action of `AppPipelineDelegate` in `lib.rs`. -/
inductive Effect where
  | statusChanged (status : AppStatus)
  | transcriptReady (text : String)
  | pipelineError (stage : String) (message : String)
  | ackTransition (transition : RecordingTransition) (success : Bool)
  | recordingStarted
  | recordingStopped
  | transcribeRequested (wavBytes : List Nat)
  | textInserted (text : String)
deriving DecidableEq, Repr

/-- One past `2 ^ 64 - 1`: the modulus of Rust `u64` arithmetic. -/
def U64 : Nat := 2 ^ 64

/-- `PipelineRuntimeState` from `lib.rs`: the monotonically increased
session counter and the currently active session id, both `AtomicU64`. -/
structure RtState where
  nextSessionId : Nat
  activeSessionId : Nat
deriving DecidableEq, Repr

/-- `PipelineRuntimeState::default` from `lib.rs`: both counters start at 0. -/
def rtDefault : RtState := { nextSessionId := 0, activeSessionId := 0 }

/-- `PipelineRuntimeState::begin_session` from `lib.rs`:
`fetch_add(1)` on the session counter (wrapping `u64` arithmetic), the new
id is the incremented value, and it is stored as the active session id. -/
def beginSession (s : RtState) : Nat × RtState :=
  let sessionId := (s.nextSessionId + 1) % U64
  (sessionId, { nextSessionId := sessionId, activeSessionId := sessionId })

/-- `PipelineRuntimeState::is_session_active` from `lib.rs`: compare the
given id with the stored active session id. -/
def isSessionActive (s : RtState) (sessionId : Nat) : Bool :=
  s.activeSessionId == sessionId

/-- The runtime state reached from `PipelineRuntimeState::default` by `n`
calls to `begin_session`. -/
def rtAfter : Nat → RtState
  | 0 => rtDefault
  | n + 1 => (beginSession (rtAfter n)).2

/-- The world over which the pipeline acts: the shared runtime state, the
hotkey-service recording flag, and the trace of observable effects emitted
so far. -/
structure World where
  rt : RtState
  recordingActive : Bool
  effects : List Effect
deriving DecidableEq, Repr

/-- Append one observable effect to the trace. -/
def emitEffect (w : World) (e : Effect) : World :=
  { w with effects := w.effects ++ [e] }

/-- `AppPipelineDelegate::is_session_active` from `lib.rs`: a delegate with
a session id asks the runtime state whether that id is still active; a
delegate constructed without a session id (`AppPipelineDelegate::new`) is
always considered active. -/
def delegateIsSessionActive (w : World) (session : Option Nat) : Bool :=
  match session with
  | some sessionId => isSessionActive w.rt sessionId
  | none => true

/-- `AppPipelineDelegate::set_status` from `lib.rs`: emit the status change
only when the delegate session is still active. -/
def delegateSetStatus (w : World) (session : Option Nat) (status : AppStatus) : World :=
  if delegateIsSessionActive w session then emitEffect w (.statusChanged status) else w

/-- `AppPipelineDelegate::emit_transcript` from `lib.rs`: emit the
transcript-ready event only when the delegate session is still active. -/
def delegateEmitTranscript (w : World) (session : Option Nat) (transcript : String) : World :=
  if delegateIsSessionActive w session then emitEffect w (.transcriptReady transcript) else w

/-- `AppPipelineDelegate::emit_error` from `lib.rs`: emit the
pipeline-error event only when the delegate session is still active. -/
def delegateEmitError (w : World) (session : Option Nat) (stage message : String) : World :=
  if delegateIsSessionActive w session then emitEffect w (.pipelineError stage message) else w

/-- `AppPipelineDelegate::on_recording_started` from `lib.rs`: acknowledge
the transition on the hotkey service. The source performs no session check
here; the acknowledgment happens for superseded sessions as well. -/
def delegateOnRecordingStarted (w : World) (session : Option Nat) (success : Bool) : World :=
  emitEffect w (.ackTransition .Started success)

/-- `AppPipelineDelegate::on_recording_stopped` from `lib.rs`: acknowledge
the transition on the hotkey service. The source performs no session check
here; the acknowledgment happens for superseded sessions as well. -/
def delegateOnRecordingStopped (w : World) (session : Option Nat) (success : Bool) : World :=
  emitEffect w (.ackTransition .Stopped success)

/-- `AppPipelineDelegate::start_recording` from `lib.rs`: forward to the
audio capture service without any session check. The capture service itself
is outside `src/`; its successful start (returning `Ok`) is modelled as the
`recordingStarted` effect plus setting the recording flag. -/
def delegateStartRecording (w : World) (session : Option Nat) : World × Bool :=
  ({ emitEffect w .recordingStarted with recordingActive := true }, true)

/-- `AppPipelineDelegate::stop_recording` from `lib.rs`: forward to the
audio capture service without any session check, obtaining the recorded
bytes. The capture service is outside `src/`; its successful stop is
modelled as the `recordingStopped` effect, clearing the recording flag and
returning the recorded audio passed in as a parameter. -/
def delegateStopRecording (w : World) (session : Option Nat) (audio : List Nat) :
    World × List Nat :=
  ({ emitEffect w .recordingStopped with recordingActive := false }, audio)

/-- `AppPipelineDelegate::transcribe` from `lib.rs`: forward the audio to
the transcription orchestrator without any session check. The orchestrator
call is recorded as the `transcribeRequested` effect; its outcome is
supplied by the `transcriber` parameter standing for the configured
provider. -/
def delegateTranscribe (w : World) (session : Option Nat) (audio : List Nat)
    (transcriber : List Nat → Except String String) : World × Except String String :=
  (emitEffect w (.transcribeRequested audio), transcriber audio)

/-- `AppPipelineDelegate::insert_text` from `lib.rs`: when the delegate
session is no longer active, return `Ok` without doing anything; otherwise
forward to the text insertion service. -/
def delegateInsertText (w : World) (session : Option Nat) (transcript : String) : World :=
  if delegateIsSessionActive w session then emitEffect w (.textInserted transcript) else w

/-- Modelled from the spec: `VoicePipeline::handle_hotkey_stopped` lives in
the `voice_pipeline` module, which is not under `src/`. Section 4.1 of the
spec gives the stop flow: call `delegate.stop_recording()` to obtain audio
bytes, acknowledge the stop transition, set status Transcribing, call
`delegate.transcribe(bytes)`; on success call `delegate.insert_text` and
`delegate.emit_transcript` and set status Idle; on failure call
`delegate.emit_error` with the stage and set status Error. This model
covers the successful capture-stop path used by the claims. -/
def handleHotkeyStopped (session : Option Nat) (audio : List Nat)
    (transcriber : List Nat → Except String String) (w : World) : World :=
  let stopped := delegateStopRecording w session audio
  let w := delegateOnRecordingStopped stopped.1 session true
  let w := delegateSetStatus w session .Transcribing
  let transcribed := delegateTranscribe w session stopped.2 transcriber
  match transcribed.2 with
  | .ok text =>
    let w := delegateInsertText transcribed.1 session text
    let w := delegateEmitTranscript w session text
    delegateSetStatus w session .Idle
  | .error message =>
    let w := delegateEmitError transcribed.1 session "transcription" message
    delegateSetStatus w session .Error

/-- The body of the stop-trigger handler in `register_pipeline_handlers`
(`lib.rs`), after the execution lock is held and the session has begun: if
the hotkey service reports no active recording, acknowledge a failed stop
transition and return; otherwise run the voice pipeline stop flow. -/
def stopHandlerBody (session : Option Nat) (audio : List Nat)
    (transcriber : List Nat → Except String String) (w : World) : World :=
  if w.recordingActive then handleHotkeyStopped session audio transcriber w
  else delegateOnRecordingStopped w session false

/-- One serialized run of the stop-trigger handler spawned in
`register_pipeline_handlers` (`lib.rs`). The source acquires the global
execution lock first and only then calls `begin_session`; since every
`begin_session` of the hotkey handlers happens inside the lock, the locked
bodies execute back to back and a run is modelled as an atomic step:
begin the session, then run the handler body with that session. -/
def stopHandlerRun (audio : List Nat) (transcriber : List Nat → Except String String)
    (w : World) : World :=
  let began := beginSession w.rt
  stopHandlerBody (some began.1) audio transcriber { w with rt := began.2 }

/-- Two stop triggers handled back to back under the source's ordering:
each queued task acquires the lock and then begins its session, so the
first run executes completely before the second begins its session. -/
def codeOrderTwoStopRuns (audio : List Nat) (transcriber : List Nat → Except String String)
    (w : World) : World :=
  stopHandlerRun audio transcriber (stopHandlerRun audio transcriber w)

/-- Modelled from the spec: the ordering stated in section 4.1 (begin a new
session, then acquire the execution lock). Two back-to-back stop triggers
each begin their session before either queued body runs, so the first body
executes with an already superseded session id. -/
def specOrderTwoStopRuns (audio : List Nat) (transcriber : List Nat → Except String String)
    (w : World) : World :=
  let first := beginSession w.rt
  let second := beginSession first.2
  let w := stopHandlerBody (some first.1) audio transcriber { w with rt := second.2 }
  stopHandlerBody (some second.1) audio transcriber w

/-- The initial world for the two-stop-trigger scenario: fresh runtime
state, a recording in progress, no effects emitted yet. -/
def initialRecordingWorld : World :=
  { rt := rtDefault, recordingActive := true, effects := [] }

/-- `TranscriptionError` from `transcription/mod.rs` as used throughout
`chatgpt.rs`: the closed error taxonomy, each variant carrying a
human-readable message. -/
inductive TranscriptionError where
  | Authentication (message : String)
  | RateLimited (message : String)
  | Network (message : String)
  | InvalidResponse (message : String)
  | Provider (message : String)
deriving DecidableEq, Repr

/-- The variant tag of a `TranscriptionError`, used to state which error
kind a mapping produces independently of the carried message. -/
inductive ErrorKind where
  | authentication
  | rateLimited
  | network
  | invalidResponse
  | provider
deriving DecidableEq, Repr

/-- Project a `TranscriptionError` to its variant tag. -/
def TranscriptionError.kind : TranscriptionError → ErrorKind
  | .Authentication _ => .authentication
  | .RateLimited _ => .rateLimited
  | .Network _ => .network
  | .InvalidResponse _ => .invalidResponse
  | .Provider _ => .provider

/-- Rust `char::is_whitespace`: the Unicode White_Space property, written
out as the full list of code points it contains. -/
def rustIsWhitespace (c : Char) : Bool :=
  let n := c.toNat
  (0x09 ≤ n && n ≤ 0x0D) || n == 0x20 || n == 0x85 || n == 0xA0 || n == 0x1680 ||
    (0x2000 ≤ n && n ≤ 0x200A) || n == 0x2028 || n == 0x2029 || n == 0x202F ||
    n == 0x205F || n == 0x3000

/-- Rust `str::trim`: drop Unicode whitespace from both ends. -/
def rustTrim (s : String) : String :=
  String.mk (((s.data.dropWhile rustIsWhitespace).reverse.dropWhile rustIsWhitespace).reverse)

/-- The UTF-8 byte length of a character sequence; Rust `str::len` counts
bytes, not characters. -/
def utf8Len (cs : List Char) : Nat :=
  (cs.map Char.utf8Size).sum

/-- Take the longest character sequence whose UTF-8 encoding is exactly `n`
bytes: `some` when byte offset `n` is a character boundary of the sequence,
`none` when it falls inside a multi-byte character or past the end. Rust
slicing `&s[..n]` returns the former and panics in the latter case. -/
def takeBytesExact : List Char → Nat → Option (List Char)
  | _, 0 => some []
  | [], _ + 1 => none
  | c :: cs, n + 1 =>
    if c.utf8Size ≤ n + 1 then (takeBytesExact cs (n + 1 - c.utf8Size)).map (c :: ·)
    else none

/-- `truncate_response_body` from `chatgpt.rs`: trim the body; return it if
its byte length is at most 300, else append `...` to its first 300 bytes
via the slice `&trimmed[..300]`. The result is `none` exactly when that
slice panics, that is when byte offset 300 of the trimmed body is not a
character boundary. -/
def truncate_response_body (value : String) : Option String :=
  let trimmed := rustTrim value
  if utf8Len trimmed.data ≤ 300 then some trimmed
  else (takeBytesExact trimmed.data 300).map (fun p => String.mk p ++ "...")

/-- `normalize_optional_string` from `chatgpt.rs`: trim the content and
drop it when the trimmed form is empty. -/
def normalize_optional_string (value : Option String) : Option String :=
  value.bind fun content =>
    let trimmed := rustTrim content
    if trimmed = "" then none else some trimmed

/-- A JSON value as produced by `serde_json`; numbers are modelled as
integers, which the error-message lookups never inspect. -/
inductive Json where
  | null
  | bool (b : Bool)
  | num (n : Int)
  | str (s : String)
  | arr (elems : List Json)
  | obj (fields : List (String × Json))

/-- `serde_json::Value::get` with a string key: look the key up when the
value is an object, `none` otherwise. -/
def jsonGet (value : Json) (key : String) : Option Json :=
  match value with
  | .obj fields => (fields.find? (fun field => field.1 == key)).map (fun field => field.2)
  | _ => none

/-- `serde_json::Value::as_str`: the carried string when the value is a
string, `none` otherwise. -/
def jsonAsStr : Json → Option String
  | .str s => some s
  | _ => none

/-- The first candidate message in `parse_chatgpt_error_message`
(`chatgpt.rs`): the `error` field taken as a string itself, or else its
`message` field taken as a string. -/
def error_field_candidate (value : Json) : Option String :=
  (jsonGet value "error").bind fun err =>
    (jsonAsStr err).orElse fun _ => (jsonGet err "message").bind jsonAsStr

/-- The second candidate message in `parse_chatgpt_error_message`
(`chatgpt.rs`): the top-level `message` field taken as a string. -/
def message_field_candidate (value : Json) : Option String :=
  (jsonGet value "message").bind jsonAsStr

/-- `parse_chatgpt_error_message` from `chatgpt.rs`. Its `raw` argument is
the response body; `parsed` is the result of `serde_json::from_str` on it
(`none` when the body is not valid JSON, in which case the function returns
`None` immediately). Otherwise the trimmed-non-empty candidates are tried
in source order, falling back to the truncated raw body. The outer `Option`
is `none` exactly when `truncate_response_body` panics. -/
def parse_chatgpt_error_message (raw : String) (parsed : Option Json) :
    Option (Option String) :=
  match parsed with
  | none => some none
  | some value =>
    match normalize_optional_string (error_field_candidate value) with
    | some message => some (some message)
    | none =>
      match normalize_optional_string (message_field_candidate value) with
      | some message => some (some message)
      | none => (truncate_response_body raw).map fun t => normalize_optional_string (some t)

/-- `map_bridge_http_error` from `chatgpt.rs`: a transport-level error
string reported by the bridge maps to `Network`; otherwise the message is
parsed from the body (with a generic status text as default) and the status
dispatches the variant: 401/403 to Authentication, 429 to RateLimited, 408
to Network, any other status of at least 500 to Network, everything else
(including an absent status) to Provider. `parsedBody` is the
`serde_json::from_str` result for the body text; the outer `Option` is
`none` exactly when the body-excerpt fallback panics. -/
def map_bridge_http_error (status : Option Nat) (body : Option String)
    (parsedBody : Option Json) (bridgeError : Option String) :
    Option TranscriptionError :=
  match normalize_optional_string bridgeError with
  | some error => some (.Network error)
  | none =>
    let bodyText := body.getD ""
    (parse_chatgpt_error_message bodyText parsedBody).map fun parsedMessage =>
      let message := parsedMessage.getD (match status with
        | some code => "ChatGPT request failed with status " ++ toString code
        | none => "ChatGPT request failed in webview bridge")
      match status with
      | some code =>
        if code = 401 ∨ code = 403 then .Authentication message
        else if code = 429 then .RateLimited message
        else if code = 408 then .Network message
        else if 500 ≤ code then .Network message
        else .Provider message
      | none => .Provider message

/-- `map_http_error` from `chatgpt.rs` (the direct, non-bridged variant):
the message is parsed from the body with the generic status text as
default; `StatusCode::UNAUTHORIZED` and `FORBIDDEN` map to Authentication,
`TOO_MANY_REQUESTS` to RateLimited, `REQUEST_TIMEOUT` to Network,
`is_server_error` (exactly the statuses 500 through 599 of the `http`
crate) to Network, everything else to Provider. `parsed` is the
`serde_json::from_str` result for the body; the outer `Option` is `none`
exactly when the body-excerpt fallback panics. -/
def map_http_error (status : Nat) (raw : String) (parsed : Option Json) :
    Option TranscriptionError :=
  (parse_chatgpt_error_message raw parsed).map fun parsedMessage =>
    let message := parsedMessage.getD ("ChatGPT request failed with status " ++ toString status)
    if status = 401 ∨ status = 403 then .Authentication message
    else if status = 429 then .RateLimited message
    else if status = 408 then .Network message
    else if 500 ≤ status ∧ status < 600 then .Network message
    else .Provider message

/-- `WebviewBridgeCallback` from `chatgpt.rs`: the payload the injected
script reports back, keyed by the request id it was given. -/
structure WebviewBridgeCallback where
  requestId : String
  ok : Bool
  status : Option Nat
  body : Option String
  error : Option String
deriving DecidableEq, Repr

/-- One HTTP request received by the loopback callback listener, after the
hand-rolled header parsing of `read_http_request` and the URL split
performed in `wait_for_webview_bridge_callback`: the request method, the
target path, the percent-decoded `payload` query parameter when present,
and the request body. -/
structure BridgeReq where
  method : String
  path : String
  queryPayload : Option String
  body : String
deriving DecidableEq, Repr

/-- `BRIDGE_CALLBACK_PATH` from `chatgpt.rs`. -/
def BRIDGE_CALLBACK_PATH : String := "/voice/chatgpt-transcribe-callback"

/-- The payload text selected in `wait_for_webview_bridge_callback`
(`chatgpt.rs`): the `payload` query parameter when present, otherwise the
trimmed request body. -/
def payloadJsonOf (req : BridgeReq) : String :=
  req.queryPayload.getD (rustTrim req.body)

/-- The outcome of running the callback-listener loop over a finite stream
of requests: still waiting for a matching callback, failed with an error
that ended the loop, or resolved with the matching payload. -/
inductive BridgeWaitOutcome where
  | pending
  | failed (e : TranscriptionError)
  | resolved (callback : WebviewBridgeCallback)
deriving DecidableEq, Repr

/-- `wait_for_webview_bridge_callback` from `chatgpt.rs`, run over the
finite list of requests the listener receives, producing the response
status line sent for each processed request and the loop outcome. Per the
source: non-GET/POST methods are answered 405 and skipped, paths other than
the callback path are answered 404 and skipped, an empty payload is
answered 400 and skipped, a payload that fails to decode ends the call with
`InvalidResponse` before any response is written, a decoded payload whose
request id differs from the outstanding one is answered 202 and skipped,
and the first decoded payload with the matching request id is answered 204
and returned, ending the loop. `decode` stands for
`serde_json::from_str::<WebviewBridgeCallback>`. -/
def wait_for_webview_bridge_callback (decode : String → Except String WebviewBridgeCallback)
    (expectedRequestId : String) :
    List BridgeReq → List String × BridgeWaitOutcome
  | [] => ([], .pending)
  | req :: rest =>
    if req.method ≠ "POST" ∧ req.method ≠ "GET" then
      let r := wait_for_webview_bridge_callback decode expectedRequestId rest
      ("405 Method Not Allowed" :: r.1, r.2)
    else if req.path ≠ BRIDGE_CALLBACK_PATH then
      let r := wait_for_webview_bridge_callback decode expectedRequestId rest
      ("404 Not Found" :: r.1, r.2)
    else if payloadJsonOf req = "" then
      let r := wait_for_webview_bridge_callback decode expectedRequestId rest
      ("400 Bad Request" :: r.1, r.2)
    else
      match decode (payloadJsonOf req) with
      | .error e =>
        ([], .failed (.InvalidResponse
          ("Webview bridge callback payload was invalid JSON: " ++ e)))
      | .ok payload =>
        if payload.requestId ≠ expectedRequestId then
          let r := wait_for_webview_bridge_callback decode expectedRequestId rest
          ("202 Accepted" :: r.1, r.2)
        else (["204 No Content"], .resolved payload)

/-- `ChatGptTranscriptionConfig` from `chatgpt.rs`: the endpoint and the
configured request timeout in seconds. -/
structure ChatGptTranscriptionConfig where
  endpoint : String
  requestTimeoutSecs : Nat
deriving DecidableEq, Repr

/-- `BRIDGE_REQUEST_TIMEOUT_SECS` from `chatgpt.rs`: the fixed 180-second
floor for the bridge timeout. -/
def BRIDGE_REQUEST_TIMEOUT_SECS : Nat := 180

/-- The overall bound (in seconds) that `invoke_webview_bridge`
(`chatgpt.rs`) passes to `tokio::time::timeout`:
`request_timeout_secs.max(BRIDGE_REQUEST_TIMEOUT_SECS)`. -/
def bridgeOverallTimeoutSecs (config : ChatGptTranscriptionConfig) : Nat :=
  max config.requestTimeoutSecs BRIDGE_REQUEST_TIMEOUT_SECS

/-- The timeout error produced by `invoke_webview_bridge` (`chatgpt.rs`)
when the wait for the matching callback exceeds the bound. -/
def bridgeTimeoutError : TranscriptionError :=
  .Network "Timed out waiting for ChatGPT webview transcription response"

/-- The `tokio::time::timeout` wrapping in `invoke_webview_bridge`
(`chatgpt.rs`): `completion` is the result of the inner wait for the
matching callback together with the number of seconds it took, or `none`
when no matching callback ever arrives. Completion within the bound yields
the inner result; otherwise the call fails with the `Network` timeout
error. On either path the function returns and the callback listener owned
by the inner wait is dropped. -/
def invokeWebviewBridgeOutcome (config : ChatGptTranscriptionConfig)
    (completion : Option (Nat × Except TranscriptionError WebviewBridgeCallback)) :
    Except TranscriptionError WebviewBridgeCallback :=
  match completion with
  | none => .error bridgeTimeoutError
  | some (elapsed, result) =>
    if elapsed < bridgeOverallTimeoutSecs config then result
    else .error bridgeTimeoutError

/-- The login methods of the auth store. Modelled from the spec: the
`auth_store` module is not under `src/`; `auth_context` only distinguishes
`ChatgptOauth` from every other configured method. -/
inductive AuthMethod where
  | ChatgptOauth
  | Other
deriving DecidableEq, Repr

/-- The stored ChatGPT OAuth credentials. Modelled from the spec, section 3:
access token, refresh token, absolute expiry timestamp in epoch seconds
(`u64`), account identifier; matching the fields `chatgpt.rs` reads. -/
structure ChatGptCredentials where
  accessToken : String
  refreshToken : String
  expiresAt : Nat
  accountId : String
deriving DecidableEq, Repr

/-- The refresh-exchange response. Modelled from the spec: the `oauth`
module is not under `src/`; per section 4.3 a refresh response carries a
new access token and expiry and is not required to rotate the refresh token
or account id, matching the optional fields `chatgpt.rs` reads. -/
structure RefreshedTokens where
  accessToken : String
  refreshToken : Option String
  expiresAt : Nat
  accountId : Option String
deriving DecidableEq, Repr

/-- The arguments `auth_context` (`chatgpt.rs`) passes to
`AuthStore::update_chatgpt_tokens`, standing for the credential fields
persisted by a successful refresh. -/
structure StoredTokens where
  accessToken : String
  refreshToken : String
  expiresAt : Nat
  accountId : String
deriving DecidableEq, Repr

/-- `ChatGptAuthContext` from `chatgpt.rs`: the access token and account id
handed to the transcription request. -/
structure ChatGptAuthContext where
  accessToken : String
  accountId : String
deriving DecidableEq, Repr

/-- Rust `u64::saturating_add` on the `Nat` model of `u64`. -/
def satAdd64 (a b : Nat) : Nat :=
  min (a + b) (U64 - 1)

/-- `ChatGptTranscriptionProvider::auth_context` from `chatgpt.rs`, with
the auth-store reads already performed: `method` and `credentials` are the
stored login method and credential set, `now` is `now_epoch_seconds()`, and
`refreshOutcome` is the result `oauth::refresh_access_token` would produce.
A non-ChatGPT login method or absent credentials fail with
`Authentication`. When `expires_at <= now.saturating_add(60)` the refresh
exchange runs: its failure maps to `Authentication`; its success keeps the
previous refresh token and account id unless the response replaced them,
persists the new token set (the returned `StoredTokens`), and uses the
refreshed access token. Otherwise the stored credentials are used as they
are and nothing is persisted. -/
def auth_context (method : AuthMethod) (credentials : Option ChatGptCredentials)
    (now : Nat) (refreshOutcome : Except String RefreshedTokens) :
    Except TranscriptionError (ChatGptAuthContext × Option StoredTokens) :=
  if method ≠ AuthMethod.ChatgptOauth then
    .error (.Authentication "ChatGPT OAuth login is not active")
  else
    match credentials with
    | none => .error (.Authentication "Missing ChatGPT OAuth credentials. Please login again.")
    | some credentials =>
      if credentials.expiresAt ≤ satAdd64 now 60 then
        match refreshOutcome with
        | .error e => .error (.Authentication e)
        | .ok refreshed =>
          let refreshedRefreshToken := refreshed.refreshToken.getD credentials.refreshToken
          let refreshedAccountId := refreshed.accountId.getD credentials.accountId
          .ok ({ accessToken := refreshed.accessToken, accountId := refreshedAccountId },
            some { accessToken := refreshed.accessToken,
                   refreshToken := refreshedRefreshToken,
                   expiresAt := refreshed.expiresAt,
                   accountId := refreshedAccountId })
      else
        .ok ({ accessToken := credentials.accessToken, accountId := credentials.accountId }, none)

/-! ## Helper lemmas -/

/-- Both counters of the runtime state reached by `n` sessions hold
`n % 2 ^ 64`. -/
theorem rtAfter_counters (n : Nat) :
    (rtAfter n).nextSessionId = n % U64 ∧ (rtAfter n).activeSessionId = n % U64 := by
  induction n with
  | zero => simp [rtAfter, rtDefault]
  | succ n ih => simp [rtAfter, beginSession, ih.1, Nat.mod_add_mod]

/-- Saturating addition compares like plain addition below the `u64`
ceiling. -/
theorem le_satAdd64_iff (a b c : Nat) (h : a < U64) :
    a ≤ satAdd64 b c ↔ a ≤ b + c := by
  unfold satAdd64 U64 at *
  omega

/-! ## C1 -/

/-- C1 (amended): after `begin_session` returns a new session id,
`is_session_active` holds for that id and fails for every id issued
earlier; the status, transcript, error and text-insertion delegate
callbacks of a session that is no longer active are silent no-ops leaving
the world unchanged; the recording-transition acknowledgments
(`on_recording_started` / `on_recording_stopped`) are not session-guarded
and still emit their acknowledgment. The hypothesis keeps the session
counter below the `u64` wrap-around. -/
theorem C1_session_epoch_and_guards (n : Nat) (h : n + 1 < U64) :
    isSessionActive (beginSession (rtAfter n)).2 (beginSession (rtAfter n)).1 = true
    ∧ (∀ k, k ≤ n → isSessionActive (beginSession (rtAfter n)).2 k = false)
    ∧ (∀ w session status, delegateIsSessionActive w (some session) = false →
        delegateSetStatus w (some session) status = w)
    ∧ (∀ w session transcript, delegateIsSessionActive w (some session) = false →
        delegateEmitTranscript w (some session) transcript = w)
    ∧ (∀ w session stage message, delegateIsSessionActive w (some session) = false →
        delegateEmitError w (some session) stage message = w)
    ∧ (∀ w session transcript, delegateIsSessionActive w (some session) = false →
        delegateInsertText w (some session) transcript = w)
    ∧ (∀ w session success, delegateOnRecordingStarted w (some session) success
        = emitEffect w (.ackTransition .Started success))
    ∧ (∀ w session success, delegateOnRecordingStopped w (some session) success
        = emitEffect w (.ackTransition .Stopped success)) := by
  obtain ⟨h1, h2⟩ := rtAfter_counters n
  have hn : n % U64 = n := Nat.mod_eq_of_lt (by omega)
  have hid : (beginSession (rtAfter n)).1 = n + 1 := by
    simp [beginSession, h1, hn, Nat.mod_eq_of_lt h]
  have hactive : (beginSession (rtAfter n)).2.activeSessionId = n + 1 := by
    simp [beginSession, h1, hn, Nat.mod_eq_of_lt h]
  refine ⟨?_, ?_, ?_, ?_, ?_, ?_, ?_, ?_⟩
  · simp [isSessionActive, hid, hactive]
  · intro k hk
    simp only [isSessionActive, hactive, beq_eq_false_iff_ne, ne_eq]
    omega
  · intro w session status hinactive
    simp [delegateSetStatus, hinactive]
  · intro w session transcript hinactive
    simp [delegateEmitTranscript, hinactive]
  · intro w session stage message hinactive
    simp [delegateEmitError, hinactive]
  · intro w session transcript hinactive
    simp [delegateInsertText, hinactive]
  · intro w session success
    rfl
  · intro w session success
    rfl

/-- Witness for C1: with one prior session, the second `begin_session`
returns id 2, which is active, while the earlier id 1 is not. -/
theorem C1_session_epoch_and_guards_witness :
    isSessionActive (beginSession (rtAfter 1)).2 (beginSession (rtAfter 1)).1 = true
    ∧ isSessionActive (beginSession (rtAfter 1)).2 1 = false :=
  ⟨(C1_session_epoch_and_guards 1 (by norm_num [U64])).1,
   (C1_session_epoch_and_guards 1 (by norm_num [U64])).2.1 1 (by norm_num)⟩

/-- Counterexample to C1 as stated: session 1 has been superseded (session
2 is active), yet the `on_recording_started` delegate callback made on
behalf of session 1 still emits its acknowledgment — an observable side
effect, where the claim requires a silent no-op with no acknowledgment. -/
theorem C1_counterexample :
    isSessionActive (rtAfter 2) 1 = false
    ∧ delegateOnRecordingStarted
        { rt := rtAfter 2, recordingActive := false, effects := [] } (some 1) true
      = { rt := rtAfter 2, recordingActive := false,
          effects := [Effect.ackTransition .Started true] } := by
  exact ⟨by decide, rfl⟩

/-! ## C2 -/

/-- C2 (code behavior at the failing input): two stop triggers handled back
to back from a recording-in-progress initial state, with the provider
returning the text hello world. Because the source acquires the execution
lock before `begin_session`, the first run begins its session only once it
holds the lock, its session stays active for its whole run, and its status
updates, inserted text and transcript all reach observers; the queued
second run then finds no recording and only acknowledges a failed stop. In
particular the first run's transcript-ready event is in the observed trace,
where the claim requires that only the second run's status, transcript or
error reach observers. Under the ordering the spec states (sessions begun
before the queued bodies run, `specOrderTwoStopRuns`), the first run's
transcript is indeed suppressed. -/
theorem C2_lock_before_session_trace :
    (codeOrderTwoStopRuns [1, 2, 3] (fun _ => .ok "hello world")
        initialRecordingWorld).effects
      = [.recordingStopped, .ackTransition .Stopped true,
         .statusChanged .Transcribing, .transcribeRequested [1, 2, 3],
         .textInserted "hello world", .transcriptReady "hello world",
         .statusChanged .Idle, .ackTransition .Stopped false]
    ∧ Effect.transcriptReady "hello world"
        ∈ (codeOrderTwoStopRuns [1, 2, 3] (fun _ => .ok "hello world")
            initialRecordingWorld).effects
    ∧ Effect.transcriptReady "hello world"
        ∉ (specOrderTwoStopRuns [1, 2, 3] (fun _ => .ok "hello world")
            initialRecordingWorld).effects := by
  refine ⟨by decide, by decide, by decide⟩

/-! ## C7 -/

/-- C7: a stop trigger that arrives while no recording is active only
begins its session and acknowledges a failed stop transition; the world is
otherwise unchanged — no status change, no recording stop, no invocation of
the transcription orchestrator, no text insertion, no transcript or error
event. -/
theorem C7_stop_without_recording (audio : List Nat)
    (transcriber : List Nat → Except String String) (w : World)
    (h : w.recordingActive = false) :
    stopHandlerRun audio transcriber w
      = { w with rt := (beginSession w.rt).2,
                 effects := w.effects ++ [.ackTransition .Stopped false] } := by
  simp [stopHandlerRun, stopHandlerBody, h, delegateOnRecordingStopped, emitEffect]

/-- Witness for C7: from a fresh idle world, the stop handler emits exactly
the failed-stop acknowledgment. -/
theorem C7_stop_without_recording_witness :
    stopHandlerRun [1, 2, 3] (fun _ => .ok "hello world")
        { rt := rtDefault, recordingActive := false, effects := [] }
      = { rt := (beginSession rtDefault).2, recordingActive := false,
          effects := [.ackTransition .Stopped false] } :=
  C7_stop_without_recording [1, 2, 3] (fun _ => .ok "hello world")
    { rt := rtDefault, recordingActive := false, effects := [] } rfl

/-! ## C3 -/

/-- A request the listener fully processes whose decoded payload carries a
request id other than the outstanding one: allowed method, the callback
path, a non-empty payload that decodes to a callback with a different id. -/
def wellFormedMismatch (decode : String → Except String WebviewBridgeCallback)
    (expectedRequestId : String) (req : BridgeReq) : Prop :=
  (req.method = "POST" ∨ req.method = "GET")
  ∧ req.path = BRIDGE_CALLBACK_PATH
  ∧ payloadJsonOf req ≠ ""
  ∧ ∃ cb, decode (payloadJsonOf req) = .ok cb ∧ cb.requestId ≠ expectedRequestId

/-- Processing one well-formed mismatching request answers it 202 and
continues the loop on the remaining requests. -/
theorem wait_step_mismatch (decode : String → Except String WebviewBridgeCallback)
    (expectedRequestId : String) (req : BridgeReq) (rest : List BridgeReq)
    (h : wellFormedMismatch decode expectedRequestId req) :
    wait_for_webview_bridge_callback decode expectedRequestId (req :: rest)
      = ("202 Accepted"
          :: (wait_for_webview_bridge_callback decode expectedRequestId rest).1,
         (wait_for_webview_bridge_callback decode expectedRequestId rest).2) := by
  obtain ⟨hmethod, hpath, hnonempty, cb, hdecode, hne⟩ := h
  rcases hmethod with hm | hm <;>
    simp [wait_for_webview_bridge_callback, hm, hpath, hnonempty, hdecode, hne]

/-- Processing one well-formed request whose decoded payload carries the
outstanding request id answers it 204 and resolves the loop with that
payload, leaving the remaining requests unprocessed. -/
theorem wait_step_match (decode : String → Except String WebviewBridgeCallback)
    (expectedRequestId : String) (req : BridgeReq) (rest : List BridgeReq)
    (cb : WebviewBridgeCallback)
    (hmethod : req.method = "POST" ∨ req.method = "GET")
    (hpath : req.path = BRIDGE_CALLBACK_PATH)
    (hnonempty : payloadJsonOf req ≠ "")
    (hdecode : decode (payloadJsonOf req) = .ok cb)
    (hmatch : cb.requestId = expectedRequestId) :
    wait_for_webview_bridge_callback decode expectedRequestId (req :: rest)
      = (["204 No Content"], .resolved cb) := by
  rcases hmethod with hm | hm <;>
    simp [wait_for_webview_bridge_callback, hm, hpath, hnonempty, hdecode, hmatch]

/-- C3: over any request stream received by the loopback listener, every
well-formed request whose decoded payload carries a request id other than
the outstanding one is answered 202 and leaves the call unresolved; the
first request whose decoded payload carries the outstanding id is answered
204 and its payload becomes the result; the call resolves exactly once and
the requests after the resolving one are never processed (the listener has
stopped accepting). -/
theorem C3_bridge_callback_correlation
    (decode : String → Except String WebviewBridgeCallback)
    (expectedRequestId : String) (pre post : List BridgeReq) (req : BridgeReq)
    (cb : WebviewBridgeCallback)
    (hpre : ∀ r ∈ pre, wellFormedMismatch decode expectedRequestId r)
    (hmethod : req.method = "POST" ∨ req.method = "GET")
    (hpath : req.path = BRIDGE_CALLBACK_PATH)
    (hnonempty : payloadJsonOf req ≠ "")
    (hdecode : decode (payloadJsonOf req) = .ok cb)
    (hmatch : cb.requestId = expectedRequestId) :
    wait_for_webview_bridge_callback decode expectedRequestId pre
      = (pre.map fun _ => "202 Accepted", .pending)
    ∧ wait_for_webview_bridge_callback decode expectedRequestId (pre ++ req :: post)
      = ((pre.map fun _ => "202 Accepted") ++ ["204 No Content"], .resolved cb) := by
  induction pre with
  | nil =>
    exact ⟨rfl, by
      simpa using wait_step_match decode expectedRequestId req post cb
        hmethod hpath hnonempty hdecode hmatch⟩
  | cons head tail ih =>
    have hhead := hpre head (by simp)
    have htail : ∀ r ∈ tail, wellFormedMismatch decode expectedRequestId r :=
      fun r hr => hpre r (by simp [hr])
    obtain ⟨ih1, ih2⟩ := ih htail
    constructor
    · rw [wait_step_mismatch decode expectedRequestId head tail hhead, ih1]
      simp
    · rw [List.cons_append,
        wait_step_mismatch decode expectedRequestId head (tail ++ req :: post) hhead, ih2]
      simp

/-- A concrete decoder standing for `serde_json` in the C3 witness: two
fixed payload texts decode to callbacks and everything else is rejected. -/
def decodeExample : String → Except String WebviewBridgeCallback :=
  fun s =>
    if s = "mismatch-payload" then
      .ok { requestId := "some-other-id", ok := true, status := some 200,
            body := some "ignored", error := none }
    else if s = "match-payload" then
      .ok { requestId := "expected-id", ok := true, status := some 200,
            body := some "result", error := none }
    else .error "invalid"

/-- A concrete mismatching request for the C3 witness. -/
def mismatchReqExample : BridgeReq :=
  { method := "GET", path := BRIDGE_CALLBACK_PATH,
    queryPayload := some "mismatch-payload", body := "" }

/-- A concrete matching request for the C3 witness. -/
def matchReqExample : BridgeReq :=
  { method := "GET", path := BRIDGE_CALLBACK_PATH,
    queryPayload := some "match-payload", body := "" }

/-- Witness for C3: one mismatching request before the matching one and one
request after it; the mismatch is answered 202, the match 204 with its
payload as the result, and the trailing request is never answered. -/
theorem C3_bridge_callback_correlation_witness :
    wait_for_webview_bridge_callback decodeExample "expected-id"
        [mismatchReqExample]
      = (["202 Accepted"], .pending)
    ∧ wait_for_webview_bridge_callback decodeExample "expected-id"
        [mismatchReqExample, matchReqExample, mismatchReqExample]
      = (["202 Accepted", "204 No Content"],
         .resolved { requestId := "expected-id", ok := true, status := some 200,
                     body := some "result", error := none }) := by
  have h := C3_bridge_callback_correlation decodeExample "expected-id"
    [mismatchReqExample] [mismatchReqExample] matchReqExample
    { requestId := "expected-id", ok := true, status := some 200,
      body := some "result", error := none }
    (by
      intro r hr
      simp only [List.mem_singleton] at hr
      subst hr
      exact ⟨Or.inr rfl, rfl, by decide,
        ⟨{ requestId := "some-other-id", ok := true, status := some 200,
           body := some "ignored", error := none }, rfl, by decide⟩⟩)
    (Or.inr rfl) rfl (by decide) rfl rfl
  exact ⟨h.1, h.2⟩

/-! ## C4 -/

/-- The status-to-kind mapping of the bridged variant, written from the
amended specification: 401 and 403 to Authentication, 429 to RateLimited,
408 and every status of at least 500 to Network, everything else to
Provider. -/
def bridgeStatusKindSpec (status : Nat) : ErrorKind :=
  if status = 401 ∨ status = 403 then .authentication
  else if status = 429 then .rateLimited
  else if status = 408 ∨ 500 ≤ status then .network
  else .provider

/-- The status-to-kind mapping of the direct variant, written from the
amended specification: as the bridged one, except that only the statuses
500 through 599 map to Network and statuses of 600 and above fall to
Provider. -/
def directStatusKindSpec (status : Nat) : ErrorKind :=
  if status = 401 ∨ status = 403 then .authentication
  else if status = 429 then .rateLimited
  else if status = 408 ∨ (500 ≤ status ∧ status < 600) then .network
  else .provider

/-- C4 (amended): for every status and every response body, whenever the
mapping functions return an error (that is, the message fallback does not
panic), the bridged variant maps the status per `bridgeStatusKindSpec`
(401/403 to Authentication, 429 to RateLimited, 408 and every status of at
least 500 to Network, the rest to Provider) and the direct variant maps it
per `directStatusKindSpec` (the same, except only 500 through 599 map to
Network and 600 and above fall to Provider). -/
theorem C4_status_to_error_kind (status : Nat) (body : Option String)
    (parsedBody : Option Json) (raw : String) (parsed : Option Json) :
    Option.elim (map_bridge_http_error (some status) body parsedBody none) True
      (fun e => e.kind = bridgeStatusKindSpec status)
    ∧ Option.elim (map_http_error status raw parsed) True
      (fun e => e.kind = directStatusKindSpec status) := by
  constructor
  · unfold map_bridge_http_error
    simp only [normalize_optional_string, Option.bind_none]
    cases parse_chatgpt_error_message (body.getD "") parsedBody with
    | none => simp
    | some parsedMessage =>
      simp only [Option.map_some, Option.elim_some, bridgeStatusKindSpec]
      split_ifs <;> first | rfl | omega
  · unfold map_http_error
    cases parse_chatgpt_error_message raw parsed with
    | none => simp
    | some parsedMessage =>
      simp only [Option.map_some, Option.elim_some, directStatusKindSpec]
      split_ifs <;> first | rfl | omega

/-- Counterexample to C4 as stated: at status 600, a valid HTTP status that
`reqwest` represents (the `http` crate accepts 100 through 999) and that is
at least 500, the direct variant maps to Provider, not Network, because
`StatusCode::is_server_error` covers only 500 through 599 — while the
bridged variant maps the same status to Network. -/
theorem C4_counterexample :
    map_http_error 600 "" none
      = some (.Provider "ChatGPT request failed with status 600")
    ∧ map_bridge_http_error (some 600) (some "") none none
      = some (.Network "ChatGPT request failed with status 600")
    ∧ (TranscriptionError.Provider "ChatGPT request failed with status 600").kind
      ≠ ErrorKind.network := by
  exact ⟨rfl, rfl, by decide⟩

/-! ## C5 -/

/-- C5: with the ChatGPT OAuth login active and a stored credential set,
`auth_context` performs the refresh exchange before use exactly when
`expires_at <= now + 60`: at or below that bound it returns the refreshed
context and persists the new token set, and strictly above the bound it
uses the stored credentials as they are and persists nothing. The first
hypothesis keeps the stored `u64` expiry in range, which makes the
saturating addition in the source compare like plain addition. -/
theorem C5_refresh_exactly_at_sixty_seconds (credentials : ChatGptCredentials)
    (now : Nat) (refreshed : RefreshedTokens) (h : credentials.expiresAt < U64) :
    (credentials.expiresAt ≤ now + 60 →
      auth_context .ChatgptOauth (some credentials) now (.ok refreshed)
        = .ok ({ accessToken := refreshed.accessToken,
                 accountId := refreshed.accountId.getD credentials.accountId },
               some { accessToken := refreshed.accessToken,
                      refreshToken := refreshed.refreshToken.getD credentials.refreshToken,
                      expiresAt := refreshed.expiresAt,
                      accountId := refreshed.accountId.getD credentials.accountId }))
    ∧ (now + 60 < credentials.expiresAt →
      auth_context .ChatgptOauth (some credentials) now (.ok refreshed)
        = .ok ({ accessToken := credentials.accessToken,
                 accountId := credentials.accountId }, none)) := by
  have hsat := le_satAdd64_iff credentials.expiresAt now 60 h
  constructor
  · intro hle
    simp [auth_context, hsat.mpr hle]
  · intro hlt
    have hneg : ¬ credentials.expiresAt ≤ satAdd64 now 60 := by
      intro hc
      have := hsat.mp hc
      omega
    simp [auth_context, hneg]

/-- Witness for C5: at `now = 1000`, a token expiring at 1061 is used as it
is with nothing persisted, while a token expiring at 1059 triggers the
refresh first. -/
theorem C5_refresh_exactly_at_sixty_seconds_witness :
    auth_context .ChatgptOauth
        (some { accessToken := "at", refreshToken := "rt",
                expiresAt := 1061, accountId := "acct" }) 1000
        (.ok { accessToken := "new-at", refreshToken := none,
               expiresAt := 5000, accountId := none })
      = .ok ({ accessToken := "at", accountId := "acct" }, none)
    ∧ auth_context .ChatgptOauth
        (some { accessToken := "at", refreshToken := "rt",
                expiresAt := 1059, accountId := "acct" }) 1000
        (.ok { accessToken := "new-at", refreshToken := none,
               expiresAt := 5000, accountId := none })
      = .ok ({ accessToken := "new-at", accountId := "acct" },
             some { accessToken := "new-at", refreshToken := "rt",
                    expiresAt := 5000, accountId := "acct" }) :=
  ⟨(C5_refresh_exactly_at_sixty_seconds
      { accessToken := "at", refreshToken := "rt", expiresAt := 1061, accountId := "acct" }
      1000
      { accessToken := "new-at", refreshToken := none, expiresAt := 5000, accountId := none }
      (by norm_num [U64])).2 (by norm_num),
   (C5_refresh_exactly_at_sixty_seconds
      { accessToken := "at", refreshToken := "rt", expiresAt := 1059, accountId := "acct" }
      1000
      { accessToken := "new-at", refreshToken := none, expiresAt := 5000, accountId := none }
      (by norm_num [U64])).1 (by norm_num)⟩

/-! ## C6 -/

/-- C6: the overall wait for the matching bridge callback is bounded by the
larger of the configured request timeout and the fixed 180-second floor; a
completion within the bound yields the inner result, while a completion
after the bound, or no matching callback at all, makes the call fail with
the `Network` timeout error — and on every path the function returns,
releasing the listener it owns. -/
theorem C6_bridge_timeout_bound (config : ChatGptTranscriptionConfig)
    (elapsed : Nat) (result : Except TranscriptionError WebviewBridgeCallback) :
    bridgeOverallTimeoutSecs config = max config.requestTimeoutSecs 180
    ∧ config.requestTimeoutSecs ≤ bridgeOverallTimeoutSecs config
    ∧ 180 ≤ bridgeOverallTimeoutSecs config
    ∧ invokeWebviewBridgeOutcome config none = .error bridgeTimeoutError
    ∧ (bridgeOverallTimeoutSecs config ≤ elapsed →
        invokeWebviewBridgeOutcome config (some (elapsed, result))
          = .error bridgeTimeoutError)
    ∧ (elapsed < bridgeOverallTimeoutSecs config →
        invokeWebviewBridgeOutcome config (some (elapsed, result)) = result)
    ∧ bridgeTimeoutError
      = .Network "Timed out waiting for ChatGPT webview transcription response" := by
  refine ⟨rfl, Nat.le_max_left _ _, Nat.le_max_right _ _, rfl, ?_, ?_, rfl⟩
  · intro hlate
    simp [invokeWebviewBridgeOutcome, Nat.not_lt.mpr hlate]
  · intro hin
    simp [invokeWebviewBridgeOutcome, hin]

/-- Witness for C6: with a configured timeout of 30 seconds the bound is
the 180-second floor, and a callback arriving after 200 seconds makes the
call fail with the `Network` timeout error. -/
theorem C6_bridge_timeout_bound_witness :
    bridgeOverallTimeoutSecs { endpoint := "e", requestTimeoutSecs := 30 } = 180
    ∧ invokeWebviewBridgeOutcome { endpoint := "e", requestTimeoutSecs := 30 }
        (some (200, .ok { requestId := "r", ok := true, status := some 200,
                          body := some "b", error := none }))
      = .error bridgeTimeoutError :=
  ⟨by norm_num [(C6_bridge_timeout_bound
      { endpoint := "e", requestTimeoutSecs := 30 } 200 (.error bridgeTimeoutError)).1],
   (C6_bridge_timeout_bound { endpoint := "e", requestTimeoutSecs := 30 } 200
      (.ok { requestId := "r", ok := true, status := some 200,
             body := some "b", error := none })).2.2.2.2.1 (by decide)⟩

/-! ## C8 -/

/-- C8: on every successful refresh, the persisted access token and expiry
are the refreshed values, while the persisted refresh token and account id
are the values supplied by the refresh response when present and the
previously stored ones otherwise; the auth context handed out uses the same
refreshed access token and account id. -/
theorem C8_refresh_persists_selectively (credentials : ChatGptCredentials)
    (now : Nat) (refreshed : RefreshedTokens)
    (h : credentials.expiresAt ≤ satAdd64 now 60) :
    auth_context .ChatgptOauth (some credentials) now (.ok refreshed)
      = .ok ({ accessToken := refreshed.accessToken,
               accountId := refreshed.accountId.getD credentials.accountId },
             some { accessToken := refreshed.accessToken,
                    refreshToken := refreshed.refreshToken.getD credentials.refreshToken,
                    expiresAt := refreshed.expiresAt,
                    accountId := refreshed.accountId.getD credentials.accountId }) := by
  simp [auth_context, h]

/-- Witness for C8: a refresh response that supplies a replacement refresh
token but no account id rotates the refresh token and keeps the stored
account id; one that supplies neither keeps both stored values. -/
theorem C8_refresh_persists_selectively_witness :
    auth_context .ChatgptOauth
        (some { accessToken := "at", refreshToken := "rt-old",
                expiresAt := 100, accountId := "acct-old" }) 1000
        (.ok { accessToken := "new-at", refreshToken := some "rt-new",
               expiresAt := 5000, accountId := none })
      = .ok ({ accessToken := "new-at", accountId := "acct-old" },
             some { accessToken := "new-at", refreshToken := "rt-new",
                    expiresAt := 5000, accountId := "acct-old" })
    ∧ auth_context .ChatgptOauth
        (some { accessToken := "at", refreshToken := "rt-old",
                expiresAt := 100, accountId := "acct-old" }) 1000
        (.ok { accessToken := "new-at", refreshToken := none,
               expiresAt := 5000, accountId := none })
      = .ok ({ accessToken := "new-at", accountId := "acct-old" },
             some { accessToken := "new-at", refreshToken := "rt-old",
                    expiresAt := 5000, accountId := "acct-old" }) :=
  ⟨C8_refresh_persists_selectively
      { accessToken := "at", refreshToken := "rt-old", expiresAt := 100, accountId := "acct-old" }
      1000
      { accessToken := "new-at", refreshToken := some "rt-new",
        expiresAt := 5000, accountId := none }
      (by norm_num [satAdd64, U64]),
   C8_refresh_persists_selectively
      { accessToken := "at", refreshToken := "rt-old", expiresAt := 100, accountId := "acct-old" }
      1000
      { accessToken := "new-at", refreshToken := none, expiresAt := 5000, accountId := none }
      (by norm_num [satAdd64, U64])⟩

/-! ## C9 -/

/-- The body of the repository test scenario: a 401 response with the JSON
body holding an error object whose message is Token invalid. -/
def tokenInvalidBody : String :=
  "\x7b\"error\":\x7b\"message\":\"Token invalid\"\x7d\x7d"

/-- The `serde_json` parse of `tokenInvalidBody`. -/
def tokenInvalidJson : Json :=
  .obj [("error", .obj [("message", .str "Token invalid")])]

/-- C9 (amended): the error message is derived by parsing the body as JSON;
when the body is not valid JSON the parse yields no message at all (and the
mapping then uses the generic status text, not a body excerpt); when the
body is valid JSON but neither the error field (as a string or through its
message field) nor the top-level message field yields a trimmed non-empty
string, the message falls back to the trimmed, 300-byte-truncated raw-body
excerpt; and a 401 response with the body holding error.message Token
invalid yields Authentication with message Token invalid in both the direct
and the bridged variant. -/
theorem C9_error_message_extraction (raw : String) (value : Json)
    (h1 : normalize_optional_string (error_field_candidate value) = none)
    (h2 : normalize_optional_string (message_field_candidate value) = none) :
    parse_chatgpt_error_message raw none = some none
    ∧ parse_chatgpt_error_message raw (some value)
      = (truncate_response_body raw).map (fun t => normalize_optional_string (some t))
    ∧ map_http_error 401 tokenInvalidBody (some tokenInvalidJson)
      = some (.Authentication "Token invalid")
    ∧ map_bridge_http_error (some 401) (some tokenInvalidBody)
        (some tokenInvalidJson) none
      = some (.Authentication "Token invalid") := by
  refine ⟨rfl, ?_, rfl, rfl⟩
  simp [parse_chatgpt_error_message, h1, h2]

/-- Witness for C9: a JSON object with no error or message field falls back
to the truncated raw body, here the body itself. -/
theorem C9_error_message_extraction_witness :
    parse_chatgpt_error_message "\x7b\"foo\":1\x7d" none = some none
    ∧ parse_chatgpt_error_message "\x7b\"foo\":1\x7d"
        (some (.obj [("foo", .num 1)]))
      = (truncate_response_body "\x7b\"foo\":1\x7d").map
          (fun t => normalize_optional_string (some t)) :=
  ⟨(C9_error_message_extraction "\x7b\"foo\":1\x7d" (.obj [("foo", .num 1)]) rfl rfl).1,
   (C9_error_message_extraction "\x7b\"foo\":1\x7d" (.obj [("foo", .num 1)]) rfl rfl).2.1⟩

/-- Counterexample to C9 as stated: the body Unauthorized is not valid JSON
(`serde_json::from_str::<Value>` rejects a bare word, so the parsed value
is `none`), and the resulting 401 error carries the generic status text —
not the truncated raw-body excerpt the claim prescribes for a body none of
whose JSON fields yields a message, which here would have been the
non-empty string Unauthorized. -/
theorem C9_counterexample :
    map_bridge_http_error (some 401) (some "Unauthorized") none none
      = some (.Authentication "ChatGPT request failed with status 401")
    ∧ normalize_optional_string (truncate_response_body "Unauthorized")
      = some "Unauthorized"
    ∧ ("ChatGPT request failed with status 401" : String) ≠ "Unauthorized" := by
  exact ⟨rfl, rfl, by decide⟩

/-! ## C10 -/

set_option maxRecDepth 4000 in
/-- C10 (code behavior at the failing input): 299 ASCII characters followed
by one two-byte character form a trimmed body of 301 bytes, so the
truncation branch slices at byte 300 — which falls inside the final
character — and `truncate_response_body` panics (`none`), where the claim
requires a value for every input. Byte 300 is not a character boundary:
`takeBytesExact` finds none there. -/
theorem C10_truncate_panics_inside_character :
    truncate_response_body (String.mk (List.replicate 299 'a' ++ ['é'])) = none
    ∧ utf8Len (rustTrim (String.mk (List.replicate 299 'a' ++ ['é']))).data = 301
    ∧ takeBytesExact (rustTrim (String.mk (List.replicate 299 'a' ++ ['é']))).data 300
      = none := by
  refine ⟨by decide, by decide, by decide⟩

end Buzz
